import Mathlib

/-!
# Link checker (`mcp-projects/my-first-mcp/index.js`)

A shallow embedding of the `check_link` tool handler registered in `index.js`.

The handler is an `async` arrow function whose body is one `try`/`catch`:
it awaits a single `fetch(url, { method: "HEAD", signal: AbortSignal.timeout(10000) })`,
reads `status`, `ok` and `statusText` from the response, and returns one of three
object literals.  The network is not part of the program, so it is a parameter
(`Net`): a function from the request that is issued to what the awaited promise
settles with.  The calls of `fetch` are recorded in a trace that is threaded
through the handler as explicit state.

One `fetch` call is not one HTTP request: the call in the source sets no
`redirect` option, so the default mode `"follow"` of the Fetch standard applies
and a redirect response is answered with a further request inside the same call.
The section "The wire below `fetch`" describes that level: a `Wire` answers single
HTTP requests, `httpFetch` is the redirect-following loop of the standard,
`settle` is the `Net` a wire gives rise to, and `sentBy` lists the HTTP requests
that a trace of `fetch` calls puts on the wire.
-/

namespace LinkChecker

/-! ## Data model -/

/-- The arguments of one `fetch` call: the URL, the `method` option and the delay
in milliseconds given to `AbortSignal.timeout` for the `signal` option. -/
structure Request where
  url : String
  method : String
  timeout : Nat
  deriving DecidableEq, Repr

/-- The parts of a fetch `Response` that the handler reads. -/
structure Response where
  status : Nat
  statusText : String
  deriving DecidableEq, Repr

/-- The getter `response.ok` of the Fetch standard: the status is in the range
200 to 299 inclusive (the source comments it as "true if status is 200-299"). -/
def Response.ok (response : Response) : Bool :=
  decide (200 ≤ response.status) && decide (response.status ≤ 299)

/-- A value caught by `catch (error)`, as far as `error.message` observes it:
`undefined` and `null` have no properties at all; a thrown primitive (a string,
a number) has no `message`; an object has a `name` and a `message` that is a
string or is absent.  `Error`, `TypeError` and `DOMException` instances, which
are what `fetch` rejects with, are objects with a string `message`. -/
inductive Thrown where
  | undefined
  | null
  | primitive (value : String)
  | object (name : String) (message : Option String)
  deriving DecidableEq, Repr

/-- What the promise returned by `fetch` settles with. -/
inductive FetchOutcome where
  | resolved (response : Response)
  | rejected (reason : Thrown)
  deriving DecidableEq, Repr

/-- The network: what a `fetch` call with the given arguments settles with. -/
abbrev Net := Request → FetchOutcome

/-- The `fetch` calls made so far, oldest first. -/
abbrev Trace := List Request

/-- One element of the `content` array of a tool result. -/
structure ContentBlock where
  type : String
  text : String
  deriving DecidableEq, Repr

/-- The object returned by the handler.  `isError` is `none` when the object
literal has no such property. -/
structure ToolResult where
  content : List ContentBlock
  isError : Option Bool
  deriving DecidableEq, Repr

/-- An exception that leaves the handler (its promise rejects). -/
inductive Uncaught where
  | typeError
  deriving DecidableEq, Repr

/-! ## Operations -/

/-- The global `fetch`, seen from the handler: records the call and yields what the
network settles it with.  The HTTP requests that the call sends are those of
`httpFetch`. -/
def fetch (net : Net) (request : Request) (issued : Trace) : FetchOutcome × Trace :=
  (net request, issued ++ [request])

/-- The property read `error.message`: a `TypeError` on `undefined` and `null`,
`undefined` (here `none`) when the value has no such property. -/
def Thrown.message : Thrown → Except Uncaught (Option String)
  | .undefined => .error .typeError
  | .null => .error .typeError
  | .primitive _ => .ok none
  | .object _ message => .ok message

/-- Conversion of a number to a string inside a template literal, for the
non-negative integers a status code ranges over. -/
def numberToString (n : Nat) : String :=
  Nat.repr n

/-- Conversion of a string-or-`undefined` value inside a template literal. -/
def valueToString : Option String → String
  | none => "undefined"
  | some s => s

/-- The handler passed to `server.tool("check_link", ...)`, lines 34 to 80.
The first component is the returned object, or the exception that escapes;
the second is the trace after the call. -/
def check_link (net : Net) (url : String) (issued : Trace) :
    Except Uncaught ToolResult × Trace :=
  match fetch net { url := url, method := "HEAD", timeout := 10000 } issued with
  | (.resolved response, issued) =>
    let status := response.status
    let ok := response.ok
    if ok then
      (.ok { content :=
               [{ type := "text",
                  text := "The link is valid! Status: " ++ numberToString status ++ " (" ++
                    response.statusText ++ ")" }],
             isError := none }, issued)
    else
      (.ok { content :=
               [{ type := "text",
                  text := "The link returned an error. Status: " ++ numberToString status ++
                    " (" ++ response.statusText ++ ")" }],
             isError := none }, issued)
  | (.rejected error, issued) =>
    match error.message with
    | .error raised => (.error raised, issued)
    | .ok message =>
      (.ok { content :=
               [{ type := "text",
                  text := "Failed to reach the URL. Error: " ++ valueToString message }],
             isError := some true }, issued)

/-- The request the handler hands to `fetch` for a URL (lines 39 to 43). -/
def probe (url : String) : Request :=
  { url := url, method := "HEAD", timeout := 10000 }

/-- The three shapes of `CheckResult` in the data model of the specification. -/
inductive OutcomeClass where
  | success
  | httpError
  | networkFailure
  deriving DecidableEq, Repr

/-- The class the specification assigns to a settled probe (section 4.1, steps 2
and 3): a completed probe is `Success` on a 2xx status and `HttpError` on any
other status, a probe that raised is `NetworkFailure`. -/
def FetchOutcome.outcomeClass : FetchOutcome → OutcomeClass
  | .resolved response =>
    if 200 ≤ response.status ∧ response.status ≤ 299 then .success else .httpError
  | .rejected _ => .networkFailure

/-- A server that answers `HEAD` with 405 and every other method with 200. -/
def headNotAllowed : Net := fun request =>
  if request.method = "HEAD" then .resolved ⟨405, "Method Not Allowed"⟩
  else .resolved ⟨200, "OK"⟩

/-- A network on which a `HEAD` request fails at the transport level while every
other method is answered with 200. -/
def headFails : Net := fun request =>
  if request.method = "HEAD" then .rejected (.object "TypeError" (some "fetch failed"))
  else .resolved ⟨200, "OK"⟩

/-! ## The contract of `fetch` -/

/-- The values the promise returned by `fetch` can reject with under the Fetch
standard: a `TypeError` (network error, malformed URL) or the abort reason of
the signal, which for the inline `AbortSignal.timeout(10000)` of the source is a
`TimeoutError` `DOMException`.  Both are objects with a string `message`. -/
def Thrown.isErrorObject : Thrown → Bool
  | .object _ (some _) => true
  | _ => false

/-- A settled `fetch` call that the Fetch standard admits: any response, or a
rejection with an error object. -/
def FetchOutcome.conforms : FetchOutcome → Bool
  | .resolved _ => true
  | .rejected reason => reason.isErrorObject

/-- A network whose every `fetch` call settles as the Fetch standard admits. -/
def FetchContract (net : Net) : Prop :=
  ∀ request, (net request).conforms = true

/-! ## The wire below `fetch` -/

/-- What the transport yields for one HTTP request: a response, together with the
target of its `Location` header (already resolved against the request URL) when
it has one, or a failure (DNS, connection, TLS, timeout). -/
inductive Reply where
  | response (response : Response) (location : Option String)
  | failure (reason : Thrown)
  deriving DecidableEq, Repr

/-- The transport: what one HTTP request is answered with. -/
abbrev Wire := Request → Reply

/-- The redirect statuses of the Fetch standard. -/
def isRedirectStatus (status : Nat) : Bool :=
  status = 301 || status = 302 || status = 303 || status = 307 || status = 308

/-- The method of the request that follows a redirect (Fetch standard,
HTTP-redirect fetch): a POST answered 301 or 302, and anything but GET and HEAD
answered 303, continue as GET; every other request keeps its method. -/
def redirectMethod (status : Nat) (method : String) : String :=
  if (status = 301 ∨ status = 302) ∧ method = "POST" then "GET"
  else if status = 303 ∧ method ≠ "GET" ∧ method ≠ "HEAD" then "GET"
  else method

/-- What one reply means for a `fetch` call in redirect mode `"follow"`: the call
settles, or it goes on with a further request. -/
inductive Step where
  | done (outcome : FetchOutcome)
  | redirect (next : Request)
  deriving DecidableEq, Repr

/-- One request of a `fetch` call in redirect mode `"follow"`: a failure rejects the
call; a response with a redirect status and a `Location` asks for a further
request to that location, under the same signal; any other response resolves
the call. -/
def step (wire : Wire) (request : Request) : Step :=
  match wire request with
  | .failure reason => .done (.rejected reason)
  | .response response location =>
    if isRedirectStatus response.status then
      match location with
      | none => .done (.resolved response)
      | some target =>
        .redirect
          { url := target,
            method := redirectMethod response.status request.method,
            timeout := request.timeout }
    else .done (.resolved response)

/-- One `fetch` call in redirect mode `"follow"`, the default that the call in the
source leaves in place: redirects are followed as long as the redirect count
allows (`remaining`, 20 at the start of a call); after that the call fails with
a `TypeError`.  Yields what the call settles with and the HTTP requests it sent,
oldest first. -/
def httpFetch (wire : Wire) (remaining : Nat) (request : Request) :
    FetchOutcome × List Request :=
  match step wire request with
  | .done outcome => (outcome, [request])
  | .redirect next =>
    match remaining with
    | 0 => (.rejected (.object "TypeError" (some "fetch failed")), [request])
    | n + 1 => ((httpFetch wire n next).1, request :: (httpFetch wire n next).2)

/-- The network as the handler sees it when `fetch` runs on the given wire. -/
def settle (wire : Wire) : Net := fun request =>
  (httpFetch wire 20 request).1

/-- The HTTP requests that a trace of `fetch` calls puts on the wire. -/
def sentBy (wire : Wire) (calls : Trace) : List Request :=
  calls.flatMap fun call => (httpFetch wire 20 call).2

/-- A host that answers plain HTTP with a permanent redirect to HTTPS and
everything else with 200. -/
def movedOnce : Wire := fun request =>
  if request.url = "http://example.com" then
    .response ⟨301, "Moved Permanently"⟩ (some "https://example.com/")
  else .response ⟨200, "OK"⟩ none

/-! ## Unfolding lemmas -/

theorem check_link_of_ok (net : Net) (url : String) (issued : Trace) (response : Response)
    (hnet : net (probe url) = .resolved response) (hok : response.ok = true) :
    check_link net url issued =
      (.ok { content :=
               [{ type := "text",
                  text := "The link is valid! Status: " ++ numberToString response.status ++
                    " (" ++ response.statusText ++ ")" }],
             isError := none }, issued ++ [probe url]) := by
  simp only [probe] at hnet
  simp [check_link, fetch, hnet, hok, probe]

theorem check_link_of_not_ok (net : Net) (url : String) (issued : Trace) (response : Response)
    (hnet : net (probe url) = .resolved response) (hok : response.ok = false) :
    check_link net url issued =
      (.ok { content :=
               [{ type := "text",
                  text := "The link returned an error. Status: " ++
                    numberToString response.status ++ " (" ++ response.statusText ++ ")" }],
             isError := none }, issued ++ [probe url]) := by
  simp only [probe] at hnet
  simp [check_link, fetch, hnet, hok, probe]

theorem check_link_of_message (net : Net) (url : String) (issued : Trace) (error : Thrown)
    (message : Option String) (hnet : net (probe url) = .rejected error)
    (hmsg : error.message = .ok message) :
    check_link net url issued =
      (.ok { content :=
               [{ type := "text",
                  text := "Failed to reach the URL. Error: " ++ valueToString message }],
             isError := some true }, issued ++ [probe url]) := by
  simp only [probe] at hnet
  simp [check_link, fetch, hnet, hmsg, probe]

theorem check_link_of_raise (net : Net) (url : String) (issued : Trace) (error : Thrown)
    (raised : Uncaught) (hnet : net (probe url) = .rejected error)
    (hmsg : error.message = .error raised) :
    check_link net url issued = (.error raised, issued ++ [probe url]) := by
  simp only [probe] at hnet
  simp [check_link, fetch, hnet, hmsg, probe]

theorem message_of_not_nullish (error : Thrown) (hu : error ≠ .undefined) (hn : error ≠ .null) :
    ∃ message, error.message = .ok message := by
  cases error with
  | undefined => exact absurd rfl hu
  | null => exact absurd rfl hn
  | primitive v => exact ⟨none, rfl⟩
  | object name message => exact ⟨message, rfl⟩

theorem ok_iff (response : Response) :
    response.ok = true ↔ 200 ≤ response.status ∧ response.status ≤ 299 := by
  simp [Response.ok]

/-- Two strings that differ within the first `n` characters stay different
whatever is appended to each. -/
theorem append_ne_append (a b x y : String) (n : Nat) (ha : n ≤ a.data.length)
    (hb : n ≤ b.data.length) (h : a.data.take n ≠ b.data.take n) : a ++ x ≠ b ++ y := by
  intro heq
  have hd := congrArg (fun s : String => s.data.take n) heq
  simp only [String.data_append] at hd
  rw [List.take_append_of_le_length ha, List.take_append_of_le_length hb] at hd
  exact h hd

theorem valid_ne_error (x y : String) :
    "The link is valid! Status: " ++ x ≠ "The link returned an error. Status: " ++ y :=
  append_ne_append _ _ x y 10 (by decide) (by decide) (by decide)

theorem valid_ne_failed (x y : String) :
    "The link is valid! Status: " ++ x ≠ "Failed to reach the URL. Error: " ++ y :=
  append_ne_append _ _ x y 1 (by decide) (by decide) (by decide)

theorem error_ne_failed (x y : String) :
    "The link returned an error. Status: " ++ x ≠ "Failed to reach the URL. Error: " ++ y :=
  append_ne_append _ _ x y 1 (by decide) (by decide) (by decide)

/-! ## Lemmas on the wire -/

theorem step_of_failure (wire : Wire) (request : Request) (reason : Thrown)
    (hwire : wire request = .failure reason) :
    step wire request = .done (.rejected reason) := by
  simp [step, hwire]

theorem step_of_final (wire : Wire) (request : Request) (response : Response)
    (location : Option String) (hwire : wire request = .response response location)
    (hfinal : isRedirectStatus response.status = false ∨ location = none) :
    step wire request = .done (.resolved response) := by
  rcases hfinal with h | h
  · simp [step, hwire, h]
  · subst h
    simp [step, hwire]

theorem redirectMethod_head (status : Nat) : redirectMethod status "HEAD" = "HEAD" := by
  simp [redirectMethod]

theorem step_redirect_keeps_head (wire : Wire) (request next : Request)
    (hstep : step wire request = .redirect next) (hmethod : request.method = "HEAD") :
    next.method = "HEAD" ∧ next.timeout = request.timeout := by
  unfold step at hstep
  split at hstep
  · cases hstep
  · split at hstep
    · split at hstep
      · cases hstep
      · cases hstep
        exact ⟨by simp only [hmethod, redirectMethod_head], rfl⟩
    · cases hstep

theorem step_done_conforms (wire : Wire) (request : Request) (outcome : FetchOutcome)
    (hwire : ∀ sent reason, wire sent = .failure reason → reason.isErrorObject = true)
    (hstep : step wire request = .done outcome) : outcome.conforms = true := by
  unfold step at hstep
  split at hstep
  · rename_i reason heq
    cases hstep
    exact hwire _ _ heq
  · split at hstep
    · split at hstep
      · cases hstep
        rfl
      · cases hstep
    · cases hstep
      rfl

theorem httpFetch_of_done (wire : Wire) (n : Nat) (request : Request) (outcome : FetchOutcome)
    (hstep : step wire request = .done outcome) :
    httpFetch wire n request = (outcome, [request]) := by
  rw [httpFetch, hstep]

theorem httpFetch_of_redirect_zero (wire : Wire) (request next : Request)
    (hstep : step wire request = .redirect next) :
    httpFetch wire 0 request =
      (.rejected (.object "TypeError" (some "fetch failed")), [request]) := by
  rw [httpFetch, hstep]

theorem httpFetch_of_redirect_succ (wire : Wire) (n : Nat) (request next : Request)
    (hstep : step wire request = .redirect next) :
    httpFetch wire (n + 1) request =
      ((httpFetch wire n next).1, request :: (httpFetch wire n next).2) := by
  rw [httpFetch, hstep]

theorem httpFetch_sent_head (wire : Wire) (n : Nat) (request : Request) :
    (httpFetch wire n request).2.head? = some request := by
  cases hstep : step wire request with
  | done outcome => rw [httpFetch_of_done wire n request outcome hstep]; rfl
  | redirect next =>
    cases n with
    | zero => rw [httpFetch_of_redirect_zero wire request next hstep]; rfl
    | succ n => rw [httpFetch_of_redirect_succ wire n request next hstep]; rfl

theorem httpFetch_sent_length (wire : Wire) (n : Nat) (request : Request) :
    (httpFetch wire n request).2.length ≤ n + 1 := by
  induction n generalizing request with
  | zero =>
    cases hstep : step wire request with
    | done outcome => rw [httpFetch_of_done wire 0 request outcome hstep]; simp
    | redirect next => rw [httpFetch_of_redirect_zero wire request next hstep]; simp
  | succ n ih =>
    cases hstep : step wire request with
    | done outcome => rw [httpFetch_of_done wire (n + 1) request outcome hstep]; simp
    | redirect next =>
      rw [httpFetch_of_redirect_succ wire n request next hstep]
      simp only [List.length_cons]
      exact Nat.succ_le_succ (ih next)

theorem httpFetch_sent_head_method (wire : Wire) (n : Nat) (request : Request)
    (hmethod : request.method = "HEAD") :
    ∀ r ∈ (httpFetch wire n request).2, r.method = "HEAD" ∧ r.timeout = request.timeout := by
  induction n generalizing request with
  | zero =>
    cases hstep : step wire request with
    | done outcome =>
      rw [httpFetch_of_done wire 0 request outcome hstep]
      simp [hmethod]
    | redirect next =>
      rw [httpFetch_of_redirect_zero wire request next hstep]
      simp [hmethod]
  | succ n ih =>
    cases hstep : step wire request with
    | done outcome =>
      rw [httpFetch_of_done wire (n + 1) request outcome hstep]
      simp [hmethod]
    | redirect next =>
      obtain ⟨hm, ht⟩ := step_redirect_keeps_head wire request next hstep hmethod
      rw [httpFetch_of_redirect_succ wire n request next hstep]
      intro r hr
      simp only [List.mem_cons] at hr
      rcases hr with hr | hr
      · subst hr
        exact ⟨hmethod, rfl⟩
      · have h := ih next hm r hr
        exact ⟨h.1, h.2.trans ht⟩

theorem httpFetch_conforms (wire : Wire) (n : Nat) (request : Request)
    (hwire : ∀ sent reason, wire sent = .failure reason → reason.isErrorObject = true) :
    (httpFetch wire n request).1.conforms = true := by
  induction n generalizing request with
  | zero =>
    cases hstep : step wire request with
    | done outcome =>
      rw [httpFetch_of_done wire 0 request outcome hstep]
      exact step_done_conforms wire request outcome hwire hstep
    | redirect next =>
      rw [httpFetch_of_redirect_zero wire request next hstep]
      rfl
  | succ n ih =>
    cases hstep : step wire request with
    | done outcome =>
      rw [httpFetch_of_done wire (n + 1) request outcome hstep]
      exact step_done_conforms wire request outcome hwire hstep
    | redirect next =>
      rw [httpFetch_of_redirect_succ wire n request next hstep]
      exact ih next

/-- On a wire whose failures are error objects, every `fetch` call settles as the
Fetch standard admits, the failure on the redirect limit included. -/
theorem settle_contract (wire : Wire)
    (hwire : ∀ sent reason, wire sent = .failure reason → reason.isErrorObject = true) :
    FetchContract (settle wire) :=
  fun request => httpFetch_conforms wire 20 request hwire

theorem sentBy_singleton (wire : Wire) (call : Request) :
    sentBy wire [call] = (httpFetch wire 20 call).2 := by
  simp [sentBy]

/-- The trace of `fetch` calls after a run of the handler: the one call of lines 39
to 43 is added, whatever the call settles with. -/
theorem check_link_trace (net : Net) (url : String) (issued : Trace) :
    (check_link net url issued).2 = issued ++ [probe url] := by
  cases hnet : net (probe url) with
  | resolved response =>
    cases hok : response.ok with
    | true => rw [check_link_of_ok net url issued response hnet hok]
    | false => rw [check_link_of_not_ok net url issued response hnet hok]
  | rejected error =>
    cases hmsg : error.message with
    | ok message => rw [check_link_of_message net url issued error message hnet hmsg]
    | error raised => rw [check_link_of_raise net url issued error raised hnet hmsg]

/-- Every run of the handler ends in exactly one of four ways, decided by what the
probe settled with; the text of a returned result starts with the fixed wording of
its branch. -/
theorem check_link_shape (net : Net) (url : String) (issued : Trace) :
    ((net (probe url)).outcomeClass = .success ∧ ∃ x,
        (check_link net url issued).1 =
          .ok ⟨[⟨"text", "The link is valid! Status: " ++ x⟩], none⟩) ∨
    ((net (probe url)).outcomeClass = .httpError ∧ ∃ x,
        (check_link net url issued).1 =
          .ok ⟨[⟨"text", "The link returned an error. Status: " ++ x⟩], none⟩) ∨
    ((net (probe url)).outcomeClass = .networkFailure ∧ ∃ x,
        (check_link net url issued).1 =
          .ok ⟨[⟨"text", "Failed to reach the URL. Error: " ++ x⟩], some true⟩) ∨
    ((net (probe url)).outcomeClass = .networkFailure ∧
        (check_link net url issued).1 = .error .typeError) := by
  cases hnet : net (probe url) with
  | resolved response =>
    cases hok : response.ok with
    | true =>
      refine Or.inl ⟨?_, numberToString response.status ++ " (" ++ response.statusText ++ ")", ?_⟩
      · simp [FetchOutcome.outcomeClass, (ok_iff response).mp hok]
      · rw [check_link_of_ok net url issued response hnet hok]
        simp [String.append_assoc]
    | false =>
      refine Or.inr (Or.inl
        ⟨?_, numberToString response.status ++ " (" ++ response.statusText ++ ")", ?_⟩)
      · have hno : ¬ (200 ≤ response.status ∧ response.status ≤ 299) := by
          intro h
          rw [(ok_iff response).mpr h] at hok
          exact Bool.noConfusion hok
        simp only [FetchOutcome.outcomeClass, if_neg hno]
      · rw [check_link_of_not_ok net url issued response hnet hok]
        simp [String.append_assoc]
  | rejected error =>
    cases hmsg : error.message with
    | ok message =>
      refine Or.inr (Or.inr (Or.inl ⟨rfl, valueToString message, ?_⟩))
      rw [check_link_of_message net url issued error message hnet hmsg]
    | error raised =>
      cases raised
      refine Or.inr (Or.inr (Or.inr ⟨rfl, ?_⟩))
      rw [check_link_of_raise net url issued error .typeError hnet hmsg]

/-! ## Claims -/

/-- C1: a result returned by the `check_link` handler has `isError` set exactly
when the probe raised a fault; for every completed probe, whatever its status
code, a result is returned and the flag is absent; for every raised fault that
is not `undefined` or `null` (every error object in particular) a result is
returned and the flag is set. -/
theorem check_link_isError_iff_rejected (net : Net) (url : String) (issued : Trace) :
    (∀ r, (check_link net url issued).1 = .ok r →
      (r.isError = some true ↔ ∃ error, net (probe url) = .rejected error)) ∧
    (∀ response, net (probe url) = .resolved response →
      ∃ r, (check_link net url issued).1 = .ok r ∧ r.isError = none) ∧
    (∀ error, net (probe url) = .rejected error → error ≠ .undefined → error ≠ .null →
      ∃ r, (check_link net url issued).1 = .ok r ∧ r.isError = some true) := by
  refine ⟨?_, ?_, ?_⟩
  · intro r hr
    cases hnet : net (probe url) with
    | resolved response =>
      cases hok : response.ok with
      | true =>
        rw [check_link_of_ok net url issued response hnet hok] at hr
        cases hr
        simp
      | false =>
        rw [check_link_of_not_ok net url issued response hnet hok] at hr
        cases hr
        simp
    | rejected error =>
      cases hmsg : error.message with
      | ok message =>
        rw [check_link_of_message net url issued error message hnet hmsg] at hr
        cases hr
        simp
      | error raised =>
        rw [check_link_of_raise net url issued error raised hnet hmsg] at hr
        cases hr
  · intro response hnet
    cases hok : response.ok with
    | true => exact ⟨_, by rw [check_link_of_ok net url issued response hnet hok], rfl⟩
    | false => exact ⟨_, by rw [check_link_of_not_ok net url issued response hnet hok], rfl⟩
  · intro error hnet hu hn
    obtain ⟨message, hmsg⟩ := message_of_not_nullish error hu hn
    exact ⟨_, by rw [check_link_of_message net url issued error message hnet hmsg], rfl⟩

/-- C2: when the probe completes with a status code `s` with `200 ≤ s ≤ 299` and
status text `t`, the handler returns the Success result: one text block reading
"The link is valid! Status: " followed by `s` in decimal, " (", `t` and ")", and
no error flag. -/
theorem check_link_success (net : Net) (url : String) (issued : Trace) (s : Nat) (t : String)
    (hnet : net (probe url) = .resolved ⟨s, t⟩) (hlo : 200 ≤ s) (hhi : s ≤ 299) :
    (check_link net url issued).1 =
      .ok { content :=
              [{ type := "text",
                 text := "The link is valid! Status: " ++ toString s ++ " (" ++ t ++ ")" }],
            isError := none } := by
  rw [check_link_of_ok net url issued ⟨s, t⟩ hnet ((ok_iff _).mpr ⟨hlo, hhi⟩)]
  rfl

/-- Witness for C2: `https://example.com` answering 200 OK. -/
theorem check_link_success_witness :
    (check_link (fun _ => .resolved ⟨200, "OK"⟩) "https://example.com" []).1 =
      .ok { content := [{ type := "text", text := "The link is valid! Status: 200 (OK)" }],
            isError := none } :=
  check_link_success (fun _ => .resolved ⟨200, "OK"⟩) "https://example.com" [] 200 "OK" rfl
    (by decide) (by decide)

/-- C3: when the probe completes with a status code `s` outside 200..299 and status
text `t`, the handler returns the HttpError result: one text block reading
"The link returned an error. Status: " followed by `s` in decimal, " (", `t` and
")", and no error flag. -/
theorem check_link_http_error (net : Net) (url : String) (issued : Trace) (s : Nat) (t : String)
    (hnet : net (probe url) = .resolved ⟨s, t⟩) (hout : ¬ (200 ≤ s ∧ s ≤ 299)) :
    (check_link net url issued).1 =
      .ok { content :=
              [{ type := "text",
                 text := "The link returned an error. Status: " ++ toString s ++ " (" ++ t ++
                   ")" }],
            isError := none } := by
  have hok : (Response.mk s t).ok = false := by
    cases h : (Response.mk s t).ok with
    | false => rfl
    | true => exact absurd ((ok_iff _).mp h) hout
  rw [check_link_of_not_ok net url issued ⟨s, t⟩ hnet hok]
  rfl

/-- Witness for C3: a missing page answering 404 Not Found. -/
theorem check_link_http_error_witness :
    (check_link (fun _ => .resolved ⟨404, "Not Found"⟩)
        "https://example.com/definitely-missing-page" []).1 =
      .ok { content :=
              [{ type := "text", text := "The link returned an error. Status: 404 (Not Found)" }],
            isError := none } :=
  check_link_http_error (fun _ => .resolved ⟨404, "Not Found"⟩)
    "https://example.com/definitely-missing-page" [] 404 "Not Found" rfl (by decide)

/-- C4: when the probe raises a fault whose description is `m`, the handler returns
the NetworkFailure result: the error flag is set and the single text is
"Failed to reach the URL. Error: " followed by `m`; that text is never empty, also
for the empty description; and any other fault with the same description, of
whatever kind and on whatever URL, yields the same result. -/
theorem check_link_network_failure (net : Net) (url : String) (issued : Trace)
    (name m : String) (hnet : net (probe url) = .rejected (.object name (some m))) :
    (check_link net url issued).1 =
      .ok { content := [{ type := "text", text := "Failed to reach the URL. Error: " ++ m }],
            isError := some true } ∧
    "Failed to reach the URL. Error: " ++ m ≠ "" ∧
    ∀ (net2 : Net) (url2 : String) (issued2 : Trace) (name2 : String),
      net2 (probe url2) = .rejected (.object name2 (some m)) →
      (check_link net2 url2 issued2).1 = (check_link net url issued).1 := by
  refine ⟨?_, ?_, ?_⟩
  · rw [check_link_of_message net url issued _ (some m) hnet rfl]
    rfl
  · intro h
    have hlen := congrArg (fun s : String => s.data.length) h
    simp [String.data_append] at hlen
  · intro net2 url2 issued2 name2 hnet2
    rw [check_link_of_message net url issued _ (some m) hnet rfl,
      check_link_of_message net2 url2 issued2 _ (some m) hnet2 rfl]

/-- Witness for C4: a timeout whose description is empty. -/
theorem check_link_network_failure_witness :
    (check_link (fun _ => .rejected (.object "TimeoutError" (some ""))) "https://10.255.255.1"
        []).1 =
      .ok { content := [{ type := "text", text := "Failed to reach the URL. Error: " }],
            isError := some true } :=
  (check_link_network_failure (fun _ => .rejected (.object "TimeoutError" (some "")))
    "https://10.255.255.1" [] "TimeoutError" "" rfl).1

/-- C5: the handler never lets a fault propagate to its caller: for every URL
string and every behaviour of the probe that `fetch` has, completing with any
status or rejecting with any error object (a `TypeError`, or the `TimeoutError`
of the signal), a result is returned and no exception leaves the handler. -/
theorem check_link_never_raises (net : Net) (url : String) (issued : Trace)
    (hfetch : FetchContract net) :
    (∃ r, (check_link net url issued).1 = .ok r) ∧
    ∀ raised, (check_link net url issued).1 ≠ .error raised := by
  have hret : ∃ r, (check_link net url issued).1 = .ok r := by
    have hconf := hfetch (probe url)
    cases hnet : net (probe url) with
    | resolved response =>
      cases hok : response.ok with
      | true => exact ⟨_, by rw [check_link_of_ok net url issued response hnet hok]⟩
      | false => exact ⟨_, by rw [check_link_of_not_ok net url issued response hnet hok]⟩
    | rejected error =>
      rw [hnet] at hconf
      have hu : error ≠ .undefined := by
        intro h
        rw [h] at hconf
        exact Bool.noConfusion hconf
      have hn : error ≠ .null := by
        intro h
        rw [h] at hconf
        exact Bool.noConfusion hconf
      obtain ⟨message, hmsg⟩ := message_of_not_nullish error hu hn
      exact ⟨_, by rw [check_link_of_message net url issued error message hnet hmsg]⟩
  refine ⟨hret, ?_⟩
  intro raised hraised
  obtain ⟨r, hr⟩ := hret
  rw [hr] at hraised
  cases hraised

/-- Witness for C5: a host that cannot be resolved, so that every `fetch` call
rejects with a `TypeError`. -/
theorem check_link_never_raises_witness :
    (∃ r, (check_link (fun _ => .rejected (.object "TypeError" (some "fetch failed")))
      "https://no-such-host.invalid" []).1 = .ok r) ∧
    ∀ raised, (check_link (fun _ => .rejected (.object "TypeError" (some "fetch failed")))
      "https://no-such-host.invalid" []).1 ≠ .error raised :=
  check_link_never_raises (fun _ => .rejected (.object "TypeError" (some "fetch failed")))
    "https://no-such-host.invalid" [] (fun _ => rfl)

/-- C6: a result returned by the handler has a content list of length exactly one
whose block has kind "text"; and a result is returned for every completed probe
and for every raised fault that is not `undefined` or `null`. -/
theorem check_link_single_text_block (net : Net) (url : String) (issued : Trace) :
    (∀ r, (check_link net url issued).1 = .ok r →
      r.content.length = 1 ∧ r.content.map ContentBlock.type = ["text"]) ∧
    (∀ response, net (probe url) = .resolved response →
      ∃ r, (check_link net url issued).1 = .ok r) ∧
    (∀ error, net (probe url) = .rejected error → error ≠ .undefined → error ≠ .null →
      ∃ r, (check_link net url issued).1 = .ok r) := by
  refine ⟨?_, ?_, ?_⟩
  · intro r hr
    rcases check_link_shape net url issued with ⟨-, x, h⟩ | ⟨-, x, h⟩ | ⟨-, x, h⟩ | ⟨-, h⟩ <;>
      rw [h] at hr <;> cases hr <;> exact ⟨rfl, rfl⟩
  · intro response hnet
    cases hok : response.ok with
    | true => exact ⟨_, by rw [check_link_of_ok net url issued response hnet hok]⟩
    | false => exact ⟨_, by rw [check_link_of_not_ok net url issued response hnet hok]⟩
  · intro error hnet hu hn
    obtain ⟨message, hmsg⟩ := message_of_not_nullish error hu hn
    exact ⟨_, by rw [check_link_of_message net url issued error message hnet hmsg]⟩

/-- C7, as stated, fails: for `http://example.com` on a host that answers plain HTTP
with 301 and a `Location`, the one `fetch` call follows the redirect, so two HEAD
requests are sent, the second to another URL, and the handler reports the 200 of
the second. -/
theorem check_link_redirect_second_request :
    sentBy movedOnce (check_link (settle movedOnce) "http://example.com" []).2 =
      [{ url := "http://example.com", method := "HEAD", timeout := 10000 },
       { url := "https://example.com/", method := "HEAD", timeout := 10000 }] ∧
    (check_link (settle movedOnce) "http://example.com" []).1 =
      .ok { content := [{ type := "text", text := "The link is valid! Status: 200 (OK)" }],
            isError := none } :=
  ⟨rfl, rfl⟩

/-- C7, amended: every invocation of the handler with URL `u` makes exactly one
`fetch` call, whatever the network does: it targets `u` unchanged, uses the
method HEAD and carries the timeout 10000 ms.  Of the HTTP requests that call
sends, the first targets `u` unchanged, every one is a HEAD request under that
timeout, and there are at most 21; when the first request fails, or is answered
with a response that is not a redirect with a `Location` (any 2xx, 4xx or 5xx
status), it is the only request. -/
theorem check_link_one_fetch_call (net : Net) (wire : Wire) (url : String) (issued : Trace) :
    (check_link net url issued).2 =
      issued ++ [{ url := url, method := "HEAD", timeout := 10000 }] ∧
    (sentBy wire (check_link (settle wire) url []).2).head? =
      some { url := url, method := "HEAD", timeout := 10000 } ∧
    (∀ r ∈ sentBy wire (check_link (settle wire) url []).2,
      r.method = "HEAD" ∧ r.timeout = 10000) ∧
    (sentBy wire (check_link (settle wire) url []).2).length ≤ 21 ∧
    (∀ reason, wire (probe url) = .failure reason →
      sentBy wire (check_link (settle wire) url []).2 =
        [{ url := url, method := "HEAD", timeout := 10000 }]) ∧
    (∀ response location, wire (probe url) = .response response location →
      isRedirectStatus response.status = false ∨ location = none →
      sentBy wire (check_link (settle wire) url []).2 =
        [{ url := url, method := "HEAD", timeout := 10000 }]) := by
  have hsent : sentBy wire (check_link (settle wire) url []).2 =
      (httpFetch wire 20 (probe url)).2 := by
    rw [check_link_trace (settle wire) url [], List.nil_append, sentBy_singleton]
  refine ⟨check_link_trace net url issued, ?_, ?_, ?_, ?_, ?_⟩
  · rw [hsent]
    exact httpFetch_sent_head wire 20 (probe url)
  · rw [hsent]
    exact httpFetch_sent_head_method wire 20 (probe url) rfl
  · rw [hsent]
    exact httpFetch_sent_length wire 20 (probe url)
  · intro reason hwire
    rw [hsent, httpFetch_of_done wire 20 (probe url) _ (step_of_failure wire _ reason hwire)]
    rfl
  · intro response location hwire hfinal
    rw [hsent, httpFetch_of_done wire 20 (probe url) _
      (step_of_final wire _ response location hwire hfinal)]
    rfl

/-- Witness for the amended C7: a missing page answered 404 gets the one HEAD
request. -/
theorem check_link_one_fetch_call_witness :
    sentBy (fun _ => .response ⟨404, "Not Found"⟩ none)
        (check_link (settle (fun _ => .response ⟨404, "Not Found"⟩ none))
          "https://example.com/definitely-missing-page" []).2 =
      [{ url := "https://example.com/definitely-missing-page", method := "HEAD",
         timeout := 10000 }] :=
  (check_link_one_fetch_call (settle (fun _ => .response ⟨404, "Not Found"⟩ none))
    (fun _ => .response ⟨404, "Not Found"⟩ none)
    "https://example.com/definitely-missing-page" []).2.2.2.2.2 ⟨404, "Not Found"⟩ none rfl
    (Or.inl rfl)

/-- C8 does not hold of the code: on a server that answers HEAD with 405 and GET
with 200 the handler issues the HEAD request only and reports the 405; on a
network where HEAD fails at the transport level and GET would be answered with
200 it issues the HEAD request only and reports the failure. -/
theorem check_link_no_get_fallback :
    check_link headNotAllowed "https://example.com" [] =
      (.ok { content :=
               [{ type := "text",
                  text := "The link returned an error. Status: 405 (Method Not Allowed)" }],
             isError := none },
       [{ url := "https://example.com", method := "HEAD", timeout := 10000 }]) ∧
    headNotAllowed { url := "https://example.com", method := "GET", timeout := 10000 } =
      .resolved ⟨200, "OK"⟩ ∧
    check_link headFails "https://example.com" [] =
      (.ok { content :=
               [{ type := "text", text := "Failed to reach the URL. Error: fetch failed" }],
             isError := some true },
       [{ url := "https://example.com", method := "HEAD", timeout := 10000 }]) ∧
    headFails { url := "https://example.com", method := "GET", timeout := 10000 } =
      .resolved ⟨200, "OK"⟩ :=
  ⟨rfl, rfl, rfl, rfl⟩

/-- C10: two probe outcomes of different classes (Success, HttpError,
NetworkFailure), with arbitrary status codes, status texts and fault values, never
lead to the same handler outcome, and when both runs return a result the two
message texts differ. -/
theorem check_link_classes_distinct (net1 net2 : Net) (url1 url2 : String)
    (issued1 issued2 : Trace)
    (hclass : (net1 (probe url1)).outcomeClass ≠ (net2 (probe url2)).outcomeClass) :
    (check_link net1 url1 issued1).1 ≠ (check_link net2 url2 issued2).1 ∧
    ∀ r1 r2, (check_link net1 url1 issued1).1 = .ok r1 →
      (check_link net2 url2 issued2).1 = .ok r2 →
      r1.content.map ContentBlock.text ≠ r2.content.map ContentBlock.text := by
  have texts : ∀ r1 r2, (check_link net1 url1 issued1).1 = .ok r1 →
      (check_link net2 url2 issued2).1 = .ok r2 →
      r1.content.map ContentBlock.text ≠ r2.content.map ContentBlock.text := by
    intro r1 r2 e1 e2
    rcases check_link_shape net1 url1 issued1 with
      ⟨c1, x, h1⟩ | ⟨c1, x, h1⟩ | ⟨c1, x, h1⟩ | ⟨c1, h1⟩ <;>
    rcases check_link_shape net2 url2 issued2 with
      ⟨c2, y, h2⟩ | ⟨c2, y, h2⟩ | ⟨c2, y, h2⟩ | ⟨c2, h2⟩ <;>
    first
    | exact absurd (c1.trans c2.symm) hclass
    | (rw [h1] at e1
       rw [h2] at e2
       cases e1 <;> cases e2 <;>
         intro h <;>
         simp only [List.map, List.cons.injEq, and_true] at h <;>
         first
         | exact valid_ne_error _ _ h
         | exact valid_ne_error _ _ h.symm
         | exact valid_ne_failed _ _ h
         | exact valid_ne_failed _ _ h.symm
         | exact error_ne_failed _ _ h
         | exact error_ne_failed _ _ h.symm)
  refine ⟨?_, texts⟩
  intro h
  cases hr : (check_link net1 url1 issued1).1 with
  | ok r => exact texts r r hr (h ▸ hr) rfl
  | error raised =>
    have hr2 : (check_link net2 url2 issued2).1 = .error raised := h ▸ hr
    have c1 : (net1 (probe url1)).outcomeClass = .networkFailure := by
      rcases check_link_shape net1 url1 issued1 with
        ⟨-, x, h1⟩ | ⟨-, x, h1⟩ | ⟨c1, -⟩ | ⟨c1, -⟩
      · rw [h1] at hr; cases hr
      · rw [h1] at hr; cases hr
      · exact c1
      · exact c1
    have c2 : (net2 (probe url2)).outcomeClass = .networkFailure := by
      rcases check_link_shape net2 url2 issued2 with
        ⟨-, x, h2⟩ | ⟨-, x, h2⟩ | ⟨c2, -⟩ | ⟨c2, -⟩
      · rw [h2] at hr2; cases hr2
      · rw [h2] at hr2; cases hr2
      · exact c2
      · exact c2
    exact hclass (c1.trans c2.symm)

/-- Witness for C10: a 200 answer against a 404 answer. -/
theorem check_link_classes_distinct_witness :
    (check_link (fun _ => .resolved ⟨200, "OK"⟩) "https://example.com" []).1 ≠
      (check_link (fun _ => .resolved ⟨404, "Not Found"⟩) "https://example.com" []).1 :=
  (check_link_classes_distinct (fun _ => .resolved ⟨200, "OK"⟩)
    (fun _ => .resolved ⟨404, "Not Found"⟩) "https://example.com" "https://example.com" [] []
    (by decide)).1

end LinkChecker
